import Mathlib

/-!
Shallow embedding of the ai-ulu QA automation agents
(src/scripts/media_agent.py and src/scripts/repair_agent.py).

Modelling conventions:
* Python strings are modelled as `List Char`.
* The base64 transport encoding of file bodies is elided: file contents are
  carried already decoded (base64 encode/decode is a bijection applied at the
  API boundary and no claim talks about the encoded form).
* JSON success bodies are modelled by records holding exactly the fields the
  scripts read; a well-formed success response always carries those fields.
* Each network call site reads its response from an explicit environment
  record; a transport failure is the sentinel `(none, 0)`.
* A Python exception escaping an operation is modelled by the `err` field of
  `RunRes`; the `trace` field lists the API calls issued before the point of
  the exception, and `out` the lines printed.
-/

namespace AiUlu

/-- Python `str.strip(chars)`: removes every leading and trailing character
that belongs to the character set `chars` (a character-set strip, not a
prefix/suffix removal). -/
def pyStrip (s chars : List Char) : List Char :=
  ((s.dropWhile (fun c => chars.contains c)).reverse.dropWhile
    (fun c => chars.contains c)).reverse

/-- Python `str.replace(old, new, 1)`: replace the first (leftmost)
occurrence of `old` by `new`, leaving the string unchanged when `old` does
not occur. -/
def replaceFirst (s old new : List Char) : List Char :=
  match s with
  | [] => if old <+: ([] : List Char) then new else []
  | c :: rest =>
    if old <+: (c :: rest) then new ++ (c :: rest).drop old.length
    else c :: replaceFirst rest old new

/-- The unchecked task marker literal of repair_agent.update_tasks_md. -/
def uncheckedMarker : List Char := "- [ ]".toList

/-- The checked task marker literal shared by both scripts. -/
def checkedMarker : List Char := "- [x]".toList

/-- Outcome of one underlying HTTP exchange as seen inside `github_request`:
either a response was received and JSON-decoded (a body of `none` models a
literal JSON null), or some exception was raised by the request or by the
decode. -/
inductive Transport (α : Type) where
  | ok (body : Option α) (status : Nat)
  | exn
deriving DecidableEq

/-- Function github_request of both scripts: returns the parsed body and status of
a received response, and collapses every raised failure to the `(none, 0)`
sentinel. -/
def github_request {α : Type} : Transport α → Option α × Nat
  | .ok body status => (body, status)
  | .exn => (none, 0)

/-- Parsed body of a successful GET on a contents URL: the fields
`content` (decoded file text) and `sha` read by the scripts. -/
structure FileResp where
  content : List Char
  sha : String
deriving DecidableEq

/-- Parsed body of a successful GET on a repository URL: `default_branch`
(may be absent, hence `Option`, matching the `.get` access) and `html_url`. -/
structure RepoResp where
  default_branch : Option String
  html_url : String
deriving DecidableEq

/-- Parsed body of a successful GET on a git ref URL: the scripts read only
`ref_info["object"]["sha"]`. -/
structure RefResp where
  objectSha : String
deriving DecidableEq

/-- Parsed body of one pull-request object: the scripts read only `title`
and `html_url`. -/
structure PrResp where
  title : List Char
  html_url : String
deriving DecidableEq

/-- The context record built by media_agent.get_context. -/
structure RepositoryContext where
  repo : List Char
  task : List Char
  pr : List Char
  chaos : List Char
deriving DecidableEq

/-- media_agent.get_context: the three arguments after the repository name
are the parsed bodies returned by `github_request` for the tasks.md read,
the closed-PR list read and the self-healing-PR list read (the statuses are
discarded by the source, which tests only Python truthiness of the bodies). -/
def get_context (repo_name : List Char) (tasks : Option FileResp)
    (prs : Option (List PrResp)) (healing_prs : Option (List PrResp)) :
    RepositoryContext :=
  let latest_task : List Char :=
    match tasks with
    | none => "System Optimization".toList
    | some t =>
      let checked := (t.content.splitOn '\n').filter
        (fun line => decide (checkedMarker <:+: line))
      match checked.getLast? with
      | none => "System Optimization".toList
      | some last => pyStrip last ("- [x] ".toList)
  let latest_pr : List Char :=
    match prs with
    | some (p :: _) => p.title
    | _ => "Code refinement".toList
  let chaos_context : List Char :=
    match healing_prs with
    | some (_ :: _) =>
      "Successfully repelled a chaos injection and self-healed.".toList
    | _ => []
  ⟨repo_name, latest_task, latest_pr, chaos_context⟩

/-- The apostrophe character (U+0027) of the template texts, written via its
code point. -/
def apos : Char := Char.ofNat 39

/-- First LinkedIn template of generate_godfather_content. -/
def li_template_0 (repo task chaos : List Char) : List Char :=
  "In the ai-ulu fortress, we don".toList ++ [apos] ++
  "t wait for luck. We build resilience. ".toList ++ repo ++
  " just advanced: ".toList ++ task ++ ". ".toList ++ chaos ++
  " The autonomous engine is purring. #SoloFounder #AgenticEngineering".toList

/-- Second LinkedIn template of generate_godfather_content. -/
def li_template_1 (repo task chaos : List Char) : List Char :=
  "Efficiency is the only currency in a SoloFounder".toList ++ [apos] ++
  "s world. ".toList ++ repo ++ " update: ".toList ++ task ++
  ". Our systems don".toList ++ [apos] ++
  "t just run; they evolve. ".toList ++ chaos ++ " #aiulu #Automation".toList

/-- First Twitter template of generate_godfather_content. -/
def tw_template_0 (repo task chaos : List Char) : List Char :=
  "The tech fortress grows. 🛡️\n\n".toList ++ repo ++ ": ".toList ++ task ++
  "\n\n".toList ++ chaos ++
  "\n\nOtonom gelecek bugün inşa ediliyor. 🚀 #aiulu #BuildInPublic".toList

/-- Second Twitter template of generate_godfather_content (the source text
of this variant interpolates no chaos note). -/
def tw_template_1 (repo task _chaos : List Char) : List Char :=
  "Chaos is an opportunity. 🐒\n\n".toList ++ repo ++
  " just passed the latest tests: ".toList ++ task ++
  ".\n\nSelf-healing: Active. ✅\n\n#AgenticQA #Automation #SoloFounder".toList

/-- The content record built by media_agent.generate_godfather_content. -/
structure GeneratedContent where
  linkedin : List Char
  twitter : List Char
  dash_title : List Char
  dash_message : List Char
  dash_timestamp : List Char
deriving DecidableEq

/-- media_agent.generate_godfather_content: the two `random.choice` calls
are modelled by the boolean selectors (false picks the first template of the
pair, true the second); `datetime.now().isoformat()` is the `now` argument. -/
def generate_godfather_content (ctx : RepositoryContext)
    (liChoice twChoice : Bool) (now : List Char) : GeneratedContent :=
  let repo := ctx.repo
  let task := ctx.task
  let chaos := ctx.chaos
  { linkedin := if liChoice then li_template_1 repo task chaos
                else li_template_0 repo task chaos
    twitter := if twChoice then tw_template_1 repo task chaos
               else tw_template_0 repo task chaos
    dash_title := "Strategic Update: ".toList ++ repo
    dash_message := task ++ ". ".toList ++ chaos
    dash_timestamp := now }

/-- A Python exception class observed escaping a modelled operation. -/
inductive PyErr where
  | attributeError
  | typeError
deriving DecidableEq

/-- One API call issued by the scripts, identified by call site, carrying
the payload fields the scripts compute. -/
inductive Call where
  | getChaos
  | getRepo
  | getRef
  | postBranch (ref sha : String)
  | deleteFile (sha branch : String)
  | getTasks
  | putTasks (content : List Char) (sha branch : String)
  | postPr (head base : String)
  | putFile (body : List Char) (branch : String)
  | postIssue
deriving DecidableEq

/-- Result of running one script operation: the API calls issued in order,
the lines printed, and the exception that escaped, if any (calls and output
up to the point of the exception are kept). -/
structure RunRes where
  trace : List Call
  out : List String
  err : Option PyErr
deriving DecidableEq

/-- repair_agent.update_tasks_md: `tasksRead` is the `github_request`
response for the GET of tasks.md.  With status 200 and an unchecked marker
in the decoded content, the first marker occurrence is flipped and the
result written back with the captured sha to the given branch; otherwise
nothing further happens.  A 200 status with a null body makes the
`res_data["content"]` subscript raise. -/
def update_tasks_md (tasksRead : Option FileResp × Nat)
    (repo_name branch_name : String) : RunRes :=
  if tasksRead.2 = 200 then
    match tasksRead.1 with
    | none => ⟨[.getTasks], [], some .typeError⟩
    | some f =>
      if uncheckedMarker <:+: f.content then
        ⟨[.getTasks,
          .putTasks (replaceFirst f.content uncheckedMarker checkedMarker)
            f.sha branch_name],
         ["📝 Updated tasks.md in " ++ repo_name], none⟩
      else ⟨[.getTasks], [], none⟩
  else ⟨[.getTasks], [], none⟩

/-- Responses consulted by repair_agent.autonomous_heal, one field per call
site that reads its response (the branch-create POST, the DELETE and the
tasks PUT discard their responses in the source, so they do not appear). -/
structure HealEnv where
  chaosRead : Option FileResp × Nat
  repoRead : Option RepoResp × Nat
  refRead : Option RefResp × Nat
  tasksRead : Option FileResp × Nat
  prCreate : Option PrResp × Nat
deriving DecidableEq

/-- repair_agent.autonomous_heal: `rnd` models `random.randint(1000, 9999)`.
The gate is the status of the chaos-artifact read; past the gate the source
dereferences the bodies of the artifact, repository and ref reads, raising
when any of them is null (the sentinel of a failed call). -/
def autonomous_heal (env : HealEnv) (rnd : Nat) (repo_name : String) : RunRes :=
  let initMsg := "🤖 Agentic Repair initiated for " ++ repo_name ++ "..."
  if env.chaosRead.2 = 200 then
    match env.chaosRead.1 with
    | none => ⟨[.getChaos], [initMsg], some .typeError⟩
    | some file =>
      let sha := file.sha
      let branch_name := "fix/chaos-recovery-" ++ toString rnd
      match env.repoRead.1 with
      | none => ⟨[.getChaos, .getRepo], [initMsg], some .attributeError⟩
      | some repo_info =>
        let default_branch := repo_info.default_branch.getD ("main")
        match env.refRead.1 with
        | none => ⟨[.getChaos, .getRepo, .getRef], [initMsg], some .typeError⟩
        | some ref_info =>
          let main_sha := ref_info.objectSha
          let tr := update_tasks_md env.tasksRead repo_name branch_name
          let pre : List Call := [.getChaos, .getRepo, .getRef,
            .postBranch ("refs/heads/" ++ branch_name) main_sha,
            .deleteFile sha branch_name]
          match tr.err with
          | some e => ⟨pre ++ tr.trace, [initMsg] ++ tr.out, some e⟩
          | none =>
            let calls := pre ++ tr.trace ++
              [.postPr branch_name default_branch]
            if env.prCreate.2 = 201 then
              match env.prCreate.1 with
              | none => ⟨calls, [initMsg] ++ tr.out, some .typeError⟩
              | some pr =>
                ⟨calls,
                 [initMsg] ++ tr.out ++
                   ["✅ Recovery PR opened: " ++ pr.html_url], none⟩
            else ⟨calls, [initMsg] ++ tr.out, none⟩
  else ⟨[.getChaos], [initMsg, "🤷 No chaos file found."], none⟩

/-- Rendering of json.dumps of the dashboard record of media_agent.save_and_issue;
escaping of special characters inside the field values is elided. -/
def json_dumps_dash (c : GeneratedContent) : List Char :=
  "\x7b\"title\": \"".toList ++ c.dash_title ++
  "\", \"message\": \"".toList ++ c.dash_message ++
  "\", \"timestamp\": \"".toList ++ c.dash_timestamp ++ "\"\x7d".toList

/-- The markdown document rendered by media_agent.save_and_issue. -/
def md_render (c : GeneratedContent) : List Char :=
  "# 🛡️ GodFather Strategic Content\n\n## LinkedIn\n".toList ++ c.linkedin ++
  "\n\n## X\n".toList ++ c.twitter ++ "\n\n## Data\n".toList ++
  json_dumps_dash c

/-- media_agent.save_and_issue: the repository-metadata read is the only
response the source consults; the PUT payload dereferences its body with
`.get`, which raises on a null body before the PUT is issued. -/
def save_and_issue (_repo_name : String) (content : GeneratedContent)
    (repoRead : Option RepoResp × Nat) : RunRes :=
  let md_content := md_render content
  match repoRead.1 with
  | none => ⟨[.getRepo], [], some .attributeError⟩
  | some repo_info =>
    ⟨[.getRepo,
      .putFile md_content (repo_info.default_branch.getD ("main")),
      .postIssue], [], none⟩

/-- Selects branch-creation calls. -/
def isBranchCreate : Call → Bool
  | .postBranch _ _ => true
  | _ => false

/-- Selects file-delete calls. -/
def isFileDelete : Call → Bool
  | .deleteFile _ _ => true
  | _ => false

/-- Selects checklist-write calls. -/
def isTasksPut : Call → Bool
  | .putTasks _ _ _ => true
  | _ => false

/-- Selects pull-request-creation calls. -/
def isPrCreate : Call → Bool
  | .postPr _ _ => true
  | _ => false

/-- Selects every call that writes platform state. -/
def isWriteCall : Call → Bool
  | .postBranch _ _ => true
  | .deleteFile _ _ => true
  | .putTasks _ _ _ => true
  | .postPr _ _ => true
  | .putFile _ _ => true
  | .postIssue => true
  | _ => false

/-- A prefix occurrence is an occurrence. -/
theorem infix_of_pre {l s : List Char} (h : l <+: s) : l <:+: s := by
  obtain ⟨t, ht⟩ := h
  exact ⟨[], t, by simpa using ht⟩

/-- Function replaceFirst leaves a string without any occurrence of the pattern
unchanged. -/
theorem replaceFirst_no_occurrence (s old new : List Char)
    (h : ¬ old <:+: s) : replaceFirst s old new = s := by
  induction s with
  | nil =>
    have hp : ¬ old <+: ([] : List Char) := fun hp => h (infix_of_pre hp)
    simp only [replaceFirst, if_neg hp]
  | cons c rest ih =>
    have hp : ¬ old <+: (c :: rest) := fun hpre => h (infix_of_pre hpre)
    have hr : ¬ old <:+: rest := fun hi =>
      h ( List.infix_cons_iff.mpr (Or.inr hi))
    simp only [replaceFirst, if_neg hp, ih hr]

/-- Function replaceFirst replaces exactly the leftmost occurrence: the input
splits as `p ++ old ++ q`, the output is `p ++ new ++ q`, and `p` is
shortest among all such splits. -/
theorem replaceFirst_first_occurrence (s old new : List Char)
    (hne : old ≠ []) (h : old <:+: s) :
    ∃ p q, s = p ++ old ++ q ∧ replaceFirst s old new = p ++ new ++ q ∧
      ∀ p' q', s = p' ++ old ++ q' → p.length ≤ p'.length := by
  induction s with
  | nil =>
    obtain ⟨u, v, huv⟩ := h
    have h2 := (List.append_eq_nil.mp huv).1
    exact absurd (List.append_eq_nil.mp h2).2 hne
  | cons c rest ih =>
    by_cases hpre : old <+: c :: rest
    · obtain ⟨q, hq⟩ := hpre
      refine ⟨[], q, by simpa using hq.symm, ?_, fun p' q' _ => Nat.zero_le _⟩
      simp only [replaceFirst, if_pos (⟨q, hq⟩ : old <+: c :: rest)]
      rw [← hq, List.drop_left]
      simp
    · have hrest : old <:+: rest := ( List.infix_cons_iff.mp h).resolve_left hpre
      obtain ⟨p, q, hs, hr, hmin⟩ := ih hrest
      refine ⟨c :: p, q, by simp [hs], ?_, ?_⟩
      · simp only [replaceFirst, if_neg hpre, hr]
        simp
      · intro p' q' heq
        cases p' with
        | nil =>
          exact absurd ⟨q', by simpa using heq.symm⟩ hpre
        | cons c' p'' =>
          simp only [List.cons_append, List.cons.injEq] at heq
          have := hmin p'' q' heq.2
          simp only [List.length_cons]
          omega

/-- C1: on a checklist read that succeeded with status 200, if the text
contains the unchecked marker then update_tasks_md issues exactly one write
whose body is the text with the first marker occurrence replaced by the
checked marker and every other character kept; if the text contains no
unchecked marker, no write is issued. -/
theorem C1_checklist_advance (f : FileResp) (repo branch : String) :
    (uncheckedMarker <:+: f.content →
      ∃ p q, f.content = p ++ uncheckedMarker ++ q ∧
        update_tasks_md (some f, 200) repo branch =
          ⟨[.getTasks, .putTasks (p ++ checkedMarker ++ q) f.sha branch],
           ["📝 Updated tasks.md in " ++ repo], none⟩ ∧
        (∀ p' q', f.content = p' ++ uncheckedMarker ++ q' →
          p.length ≤ p'.length)) ∧
    (¬ uncheckedMarker <:+: f.content →
      update_tasks_md (some f, 200) repo branch = ⟨[.getTasks], [], none⟩) := by
  constructor
  · intro h
    obtain ⟨p, q, hs, hr, hmin⟩ :=
      replaceFirst_first_occurrence f.content uncheckedMarker checkedMarker
        (by decide) h
    refine ⟨p, q, hs, ?_, hmin⟩
    simp [update_tasks_md, h, hr]
  · intro h
    simp [update_tasks_md, h]

/-- Witness for C1 at concrete inputs: a two-line checklist with one
unchecked line gets exactly that line flipped, and a document without the
marker triggers no write. -/
theorem C1_checklist_advance_witness :
    (∃ p q, ("# t\n- [ ] a".toList : List Char) = p ++ uncheckedMarker ++ q ∧
      update_tasks_md (some ⟨"# t\n- [ ] a".toList, "s"⟩, 200) ("r") ("b") =
        ⟨[.getTasks, .putTasks (p ++ checkedMarker ++ q) ("s") ("b")],
         ["📝 Updated tasks.md in r"], none⟩ ∧
      (∀ p' q', ("# t\n- [ ] a".toList : List Char) = p' ++ uncheckedMarker ++ q' →
        p.length ≤ p'.length)) ∧
    update_tasks_md (some ⟨"done".toList, "s"⟩, 200) ("r") ("b") =
      ⟨[.getTasks], [], none⟩ :=
  ⟨(C1_checklist_advance ⟨"# t\n- [ ] a".toList, "s"⟩ ("r") ("b")).1 (by decide),
   (C1_checklist_advance ⟨"done".toList, "s"⟩ ("r") ("b")).2 (by decide)⟩

/-- Comparing `p ++ u ++ q` against `p ++ v ++ q` with `u` and `v` of equal length
agreeing everywhere except position `i0`, every position other than
`p.length + i0` holds the same character. -/
theorem append_one_diff (p q u v : List Char) (hlen : u.length = v.length)
    (i0 : Nat) (hdiff : ∀ k, k ≠ i0 → u[k]? = v[k]?) :
    ∀ j, j ≠ p.length + i0 → (p ++ u ++ q)[j]? = (p ++ v ++ q)[j]? := by
  intro j hj
  rw [List.append_assoc, List.append_assoc]
  by_cases h1 : j < p.length
  · rw [List.getElem?_append_left h1, List.getElem?_append_left h1]
  · push_neg at h1
    rw [List.getElem?_append_right h1, List.getElem?_append_right h1]
    have hd : j - p.length ≠ i0 := by omega
    by_cases h2 : j - p.length < u.length
    · rw [List.getElem?_append_left h2,
        List.getElem?_append_left (by omega : j - p.length < v.length)]
      exact hdiff _ hd
    · push_neg at h2
      rw [List.getElem?_append_right h2,
        List.getElem?_append_right (by omega : v.length ≤ j - p.length), hlen]

/-- The unchecked and checked markers agree at every position except
index 3, where a space faces an x. -/
theorem markers_agree_off3 :
    ∀ k, k ≠ 3 → uncheckedMarker[k]? = checkedMarker[k]? := by
  have h1 : uncheckedMarker.length = 5 := by decide
  have h2 : checkedMarker.length = 5 := by decide
  intro k hk
  match k with
  | 0 => rfl
  | 1 => rfl
  | 2 => rfl
  | 3 => exact absurd rfl hk
  | 4 => rfl
  | n + 5 =>
    rw [List.getElem?_eq_none (by omega), List.getElem?_eq_none (by omega)]

/-- C10: the two markers have equal length, so every write issued by the
Checklist Advance operation preserves the character length of the document,
and the written document differs from the one read at exactly one character
position, where a space becomes an x. -/
theorem C10_write_one_char_diff (f : FileResp) (repo branch : String)
    (h : uncheckedMarker <:+: f.content) :
    ∃ newC, update_tasks_md (some f, 200) repo branch =
        ⟨[.getTasks, .putTasks newC f.sha branch],
         ["📝 Updated tasks.md in " ++ repo], none⟩ ∧
      newC.length = f.content.length ∧
      ∃ i : Nat, f.content[i]? = some ' ' ∧ newC[i]? = some 'x' ∧
        ∀ j : Nat, j ≠ i → newC[j]? = f.content[j]? := by
  obtain ⟨p, q, hs, hr, hmin⟩ :=
    replaceFirst_first_occurrence f.content uncheckedMarker checkedMarker
      (by decide) h
  have hlen : checkedMarker.length = uncheckedMarker.length := by decide
  refine ⟨p ++ checkedMarker ++ q, ?_, ?_, p.length + 3, ?_, ?_, ?_⟩
  · simp [update_tasks_md, h, hr]
  · rw [hs]
    simp [hlen]
  · rw [hs, List.append_assoc,
      List.getElem?_append_right (by omega : p.length ≤ p.length + 3)]
    have h3 : p.length + 3 - p.length = 3 := by omega
    rw [h3, List.getElem?_append_left (by decide : 3 < uncheckedMarker.length)]
    rfl
  · rw [List.append_assoc,
      List.getElem?_append_right (by omega : p.length ≤ p.length + 3)]
    have h3 : p.length + 3 - p.length = 3 := by omega
    rw [h3, List.getElem?_append_left (by decide : 3 < checkedMarker.length)]
    rfl
  · intro j hj
    rw [hs]
    exact append_one_diff p q checkedMarker uncheckedMarker hlen 3
      (fun k hk => (markers_agree_off3 k hk).symm) j hj

/-- Witness for C10 at a concrete input: flipping the only unchecked line of
a one-line checklist preserves its length and changes one character. -/
theorem C10_write_one_char_diff_witness :
    ∃ newC, update_tasks_md (some ⟨"- [ ] a".toList, "s"⟩, 200) ("r") ("b") =
        ⟨[.getTasks, .putTasks newC ("s") ("b")],
         ["📝 Updated tasks.md in r"], none⟩ ∧
      newC.length = ("- [ ] a".toList : List Char).length ∧
      ∃ i : Nat, ("- [ ] a".toList : List Char)[i]? = some ' ' ∧
        newC[i]? = some 'x' ∧
        ∀ j : Nat, j ≠ i → newC[j]? = ("- [ ] a".toList : List Char)[j]? :=
  C10_write_one_char_diff ⟨"- [ ] a".toList, "s"⟩ ("r") ("b") (by decide)

/-- C2: divergence witness for the task-extraction claim.  On the single
checked line "- [x] Fix x" the code computes the task "Fi", because Python
str.strip treats its argument as a character set and removes the trailing
"x x" too, while the claim demands the prefix-stripped "Fix x". -/
theorem C2_strip_divergence :
    (get_context ("demo".toList) (some ⟨"- [x] Fix x".toList, "s"⟩)
      none none).task = ("Fi".toList) ∧
    ("Fi".toList : List Char) ≠ ("Fix x".toList) := by
  constructor
  · decide
  · decide

/-- C3: divergence witness for the never-empty claim.  A checklist whose
only line is "- [x]" makes get_context return the empty task description:
every character of the line belongs to the strip set, so str.strip removes
them all. -/
theorem C3_empty_task :
    (get_context ("demo".toList) (some ⟨"- [x]".toList, "s"⟩)
      none none).task = [] := by
  decide

/-- C7: github_request returns the parsed body and numeric status whenever a
response was received, and exactly the (null, 0) sentinel whenever the
request or the decode raised; being a total function of the transport
outcome, no other error value escapes. -/
theorem C7_github_request_sentinel (α : Type) (t : Transport α) :
    (∃ body status, t = .ok body status ∧ github_request t = (body, status)) ∨
    (t = .exn ∧ github_request t = (none, 0)) := by
  cases t with
  | ok b s => exact .inl ⟨b, s, rfl, rfl⟩
  | exn => exact .inr ⟨rfl, rfl⟩

/-- C9: get_context is deterministic — two invocations against an unchanged
checklist document and unchanged pull-request lists produce identical
context records; the operation consults no random source. -/
theorem C9_get_context_deterministic (r : List Char)
    (t t' : Option FileResp) (p p' : Option (List PrResp))
    (hl hl' : Option (List PrResp))
    (het : t = t') (hep : p = p') (heh : hl = hl') :
    get_context r t p hl = get_context r t' p' hl' := by
  subst het
  subst hep
  subst heh
  rfl

/-- Witness for C9 at concrete inputs. -/
theorem C9_get_context_deterministic_witness :
    get_context ("demo".toList) (some ⟨"- [x] Set up CI".toList, "s"⟩)
        none none =
      get_context ("demo".toList) (some ⟨"- [x] Set up CI".toList, "s"⟩)
        none none :=
  C9_get_context_deterministic ("demo".toList)
    (some ⟨"- [x] Set up CI".toList, "s"⟩)
    (some ⟨"- [x] Set up CI".toList, "s"⟩) none none none none rfl rfl rfl

/-- A list occurs in any extension of itself on the left. -/
theorem infix_end (P x : List Char) : x <:+: P ++ x := ⟨P, [], by simp⟩

/-- Occurrence survives appending on the right. -/
theorem infix_grow_right {x s : List Char} (h : x <:+: s) (l : List Char) :
    x <:+: s ++ l := by
  obtain ⟨u, v, huv⟩ := h
  exact ⟨u, v ++ l, by rw [← huv]; simp⟩

/-- The first LinkedIn template contains the repository name verbatim. -/
theorem li_template_0_repo (repo task chaos : List Char) :
    repo <:+: li_template_0 repo task chaos := by
  unfold li_template_0
  repeat first
    | exact infix_end _ _
    | apply infix_grow_right

/-- The first LinkedIn template contains the task description verbatim. -/
theorem li_template_0_task (repo task chaos : List Char) :
    task <:+: li_template_0 repo task chaos := by
  unfold li_template_0
  repeat first
    | exact infix_end _ _
    | apply infix_grow_right

/-- The second LinkedIn template contains the repository name verbatim. -/
theorem li_template_1_repo (repo task chaos : List Char) :
    repo <:+: li_template_1 repo task chaos := by
  unfold li_template_1
  repeat first
    | exact infix_end _ _
    | apply infix_grow_right

/-- The second LinkedIn template contains the task description verbatim. -/
theorem li_template_1_task (repo task chaos : List Char) :
    task <:+: li_template_1 repo task chaos := by
  unfold li_template_1
  repeat first
    | exact infix_end _ _
    | apply infix_grow_right

/-- The first Twitter template contains the repository name verbatim. -/
theorem tw_template_0_repo (repo task chaos : List Char) :
    repo <:+: tw_template_0 repo task chaos := by
  unfold tw_template_0
  repeat first
    | exact infix_end _ _
    | apply infix_grow_right

/-- The first Twitter template contains the task description verbatim. -/
theorem tw_template_0_task (repo task chaos : List Char) :
    task <:+: tw_template_0 repo task chaos := by
  unfold tw_template_0
  repeat first
    | exact infix_end _ _
    | apply infix_grow_right

/-- The second Twitter template contains the repository name verbatim. -/
theorem tw_template_1_repo (repo task chaos : List Char) :
    repo <:+: tw_template_1 repo task chaos := by
  unfold tw_template_1
  repeat first
    | exact infix_end _ _
    | apply infix_grow_right

/-- The second Twitter template contains the task description verbatim. -/
theorem tw_template_1_task (repo task chaos : List Char) :
    task <:+: tw_template_1 repo task chaos := by
  unfold tw_template_1
  repeat first
    | exact infix_end _ _
    | apply infix_grow_right

/-- C8: whichever template variants the generator selects, the produced
long-form and short-form texts contain the repository name and the
(possibly default) task description verbatim as contiguous substrings. -/
theorem C8_templates_contain (ctx : RepositoryContext)
    (liChoice twChoice : Bool) (now : List Char) :
    ctx.repo <:+: (generate_godfather_content ctx liChoice twChoice now).linkedin ∧
    ctx.task <:+: (generate_godfather_content ctx liChoice twChoice now).linkedin ∧
    ctx.repo <:+: (generate_godfather_content ctx liChoice twChoice now).twitter ∧
    ctx.task <:+: (generate_godfather_content ctx liChoice twChoice now).twitter := by
  cases liChoice <;> cases twChoice
  · exact ⟨li_template_0_repo ctx.repo ctx.task ctx.chaos, li_template_0_task ctx.repo ctx.task ctx.chaos,
      tw_template_0_repo ctx.repo ctx.task ctx.chaos, tw_template_0_task ctx.repo ctx.task ctx.chaos⟩
  · exact ⟨li_template_0_repo ctx.repo ctx.task ctx.chaos, li_template_0_task ctx.repo ctx.task ctx.chaos,
      tw_template_1_repo ctx.repo ctx.task ctx.chaos, tw_template_1_task ctx.repo ctx.task ctx.chaos⟩
  · exact ⟨li_template_1_repo ctx.repo ctx.task ctx.chaos, li_template_1_task ctx.repo ctx.task ctx.chaos,
      tw_template_0_repo ctx.repo ctx.task ctx.chaos, tw_template_0_task ctx.repo ctx.task ctx.chaos⟩
  · exact ⟨li_template_1_repo ctx.repo ctx.task ctx.chaos, li_template_1_task ctx.repo ctx.task ctx.chaos,
      tw_template_1_repo ctx.repo ctx.task ctx.chaos, tw_template_1_task ctx.repo ctx.task ctx.chaos⟩

/-- update_tasks_md completes whenever a 200 status comes with a parsed
body: it issues one checklist write (to the given branch) when the document
contains the unchecked marker and none otherwise. -/
theorem update_tasks_md_completes (tr : Option FileResp × Nat) (r b : String)
    (ht : tr.2 = 200 → tr.1.isSome = true) :
    (update_tasks_md tr r b).err = none ∧
    ((update_tasks_md tr r b).trace = [.getTasks] ∨
     ∃ c s, (update_tasks_md tr r b).trace = [.getTasks, .putTasks c s b]) := by
  by_cases h200 : tr.2 = 200
  · obtain ⟨f, hf⟩ := Option.isSome_iff_exists.mp (ht h200)
    by_cases hm : uncheckedMarker <:+: f.content
    · refine ⟨?_, .inr ⟨replaceFirst f.content uncheckedMarker checkedMarker,
        f.sha, ?_⟩⟩ <;> simp [update_tasks_md, h200, hf, hm]
    · refine ⟨?_, .inl ?_⟩ <;> simp [update_tasks_md, h200, hf, hm]
  · refine ⟨?_, .inl ?_⟩ <;> simp [update_tasks_md, h200]

/-- C6: when the chaos-artifact read returns a non-success status, the
Repair Agent issues zero write calls, reports that there is nothing to
repair, and nothing besides that gate influences the run: any environment
failing the gate produces the same result. -/
theorem C6_no_artifact_no_writes (env : HealEnv) (rnd : Nat) (repo : String)
    (h : env.chaosRead.2 ≠ 200) :
    autonomous_heal env rnd repo =
      ⟨[.getChaos],
       ["🤖 Agentic Repair initiated for " ++ repo ++ "...",
        "🤷 No chaos file found."], none⟩ ∧
    (autonomous_heal env rnd repo).trace.countP isWriteCall = 0 ∧
    (∀ env' rnd', env'.chaosRead.2 ≠ 200 →
      autonomous_heal env' rnd' repo = autonomous_heal env rnd repo) := by
  have he : autonomous_heal env rnd repo =
      ⟨[.getChaos],
       ["🤖 Agentic Repair initiated for " ++ repo ++ "...",
        "🤷 No chaos file found."], none⟩ := by
    simp [autonomous_heal, h]
  refine ⟨he, ?_, ?_⟩
  · rw [he]
    rfl
  · intro env' rnd' h'
    rw [he]
    simp [autonomous_heal, h']

/-- Witness for C6: a fully failed environment (every call the sentinel)
performs only the artifact read and prints the nothing-to-repair line. -/
theorem C6_no_artifact_no_writes_witness :
    autonomous_heal ⟨(none, 0), (none, 0), (none, 0), (none, 0), (none, 0)⟩
        7 ("demo") =
      ⟨[.getChaos],
       ["🤖 Agentic Repair initiated for demo...",
        "🤷 No chaos file found."], none⟩ ∧
    (autonomous_heal ⟨(none, 0), (none, 0), (none, 0), (none, 0), (none, 0)⟩
        7 ("demo")).trace.countP isWriteCall = 0 ∧
    (∀ env' rnd', env'.chaosRead.2 ≠ 200 →
      autonomous_heal env' rnd' ("demo") =
        autonomous_heal ⟨(none, 0), (none, 0), (none, 0), (none, 0), (none, 0)⟩
          7 ("demo")) :=
  C6_no_artifact_no_writes
    ⟨(none, 0), (none, 0), (none, 0), (none, 0), (none, 0)⟩ 7 ("demo")
    (by decide)

/-- C5 (amended): on a run whose chaos-artifact read succeeds with a parsed
body and whose repository-metadata and default-branch-ref reads (and, when
it returns 200, the checklist read) return parsed bodies, the Repair Agent
creates exactly one branch reference — named with the fixed prefix and the
random suffix and pointing at the default branch's head commit — issues
exactly one file delete, which deletes the artifact by its captured sha on
that branch, performs at most one checklist write, any such write going to
that branch, and issues exactly one pull-request creation, from that branch
into the default branch. -/
theorem C5_heal_write_counts (env : HealEnv) (rnd : Nat) (repo : String)
    (f : FileResp) (hc : env.chaosRead = (some f, 200))
    (hr : env.repoRead.1.isSome = true)
    (hg : env.refRead.1.isSome = true)
    (ht : env.tasksRead.2 = 200 → env.tasksRead.1.isSome = true) :
    ∃ ri gi, env.repoRead.1 = some ri ∧ env.refRead.1 = some gi ∧
      (autonomous_heal env rnd repo).trace.filter isBranchCreate =
        [.postBranch ("refs/heads/" ++ ("fix/chaos-recovery-" ++ toString rnd))
          gi.objectSha] ∧
      (autonomous_heal env rnd repo).trace.filter isFileDelete =
        [.deleteFile f.sha ("fix/chaos-recovery-" ++ toString rnd)] ∧
      ((autonomous_heal env rnd repo).trace.filter isTasksPut = [] ∨
       ∃ c s, (autonomous_heal env rnd repo).trace.filter isTasksPut =
         [.putTasks c s ("fix/chaos-recovery-" ++ toString rnd)]) ∧
      (autonomous_heal env rnd repo).trace.filter isPrCreate =
        [.postPr ("fix/chaos-recovery-" ++ toString rnd)
          (ri.default_branch.getD ("main"))] ∧
      (autonomous_heal env rnd repo).trace.countP isBranchCreate = 1 ∧
      (autonomous_heal env rnd repo).trace.countP isFileDelete = 1 ∧
      (autonomous_heal env rnd repo).trace.countP isTasksPut ≤ 1 ∧
      (autonomous_heal env rnd repo).trace.countP isPrCreate = 1 := by
  obtain ⟨ri, hri⟩ := Option.isSome_iff_exists.mp hr
  obtain ⟨gi, hgi⟩ := Option.isSome_iff_exists.mp hg
  have hc2 : env.chaosRead.2 = 200 := by rw [hc]
  have hc1 : env.chaosRead.1 = some f := by rw [hc]
  obtain ⟨herr, htrace⟩ := update_tasks_md_completes env.tasksRead repo
    ("fix/chaos-recovery-" ++ toString rnd) ht
  have htr : (autonomous_heal env rnd repo).trace =
      [Call.getChaos, Call.getRepo, Call.getRef,
       Call.postBranch ("refs/heads/" ++ ("fix/chaos-recovery-" ++ toString rnd))
         gi.objectSha,
       Call.deleteFile f.sha ("fix/chaos-recovery-" ++ toString rnd)] ++
      (update_tasks_md env.tasksRead repo
        ("fix/chaos-recovery-" ++ toString rnd)).trace ++
      [Call.postPr ("fix/chaos-recovery-" ++ toString rnd)
        (ri.default_branch.getD ("main"))] := by
    simp only [autonomous_heal, hc2, hc1, hri, hgi, herr, if_pos]
    by_cases hpr : env.prCreate.2 = 201
    · cases hpc : env.prCreate.1 <;> simp [hpr, hpc]
    · simp [hpr]
  refine ⟨ri, gi, hri, hgi, ?_, ?_, ?_, ?_, ?_, ?_, ?_, ?_⟩ <;> rw [htr] <;>
    rcases htrace with h1 | ⟨c, s, h1⟩ <;> rw [h1] <;>
    simp [List.filter_append, List.countP_append, List.countP_cons,
      isBranchCreate, isFileDelete, isTasksPut, isPrCreate]

/-- Witness for C5 at a fully successful concrete environment: the branch
create, the artifact delete, the checklist write and the PR create are each
pinned to the created branch and the default branch. -/
theorem C5_heal_write_counts_witness :
    ∃ ri gi,
      (⟨(some ⟨"x".toList, "cs"⟩, 200), (some ⟨some ("main"), "u"⟩, 200),
        (some ⟨"msha"⟩, 200), (some ⟨"- [ ] t".toList, "ts"⟩, 200),
        (some ⟨"PR".toList, "purl"⟩, 201)⟩ : HealEnv).repoRead.1 = some ri ∧
      (⟨(some ⟨"x".toList, "cs"⟩, 200), (some ⟨some ("main"), "u"⟩, 200),
        (some ⟨"msha"⟩, 200), (some ⟨"- [ ] t".toList, "ts"⟩, 200),
        (some ⟨"PR".toList, "purl"⟩, 201)⟩ : HealEnv).refRead.1 = some gi ∧
      (autonomous_heal
          ⟨(some ⟨"x".toList, "cs"⟩, 200), (some ⟨some ("main"), "u"⟩, 200),
           (some ⟨"msha"⟩, 200), (some ⟨"- [ ] t".toList, "ts"⟩, 200),
           (some ⟨"PR".toList, "purl"⟩, 201)⟩ 5 ("demo")).trace.filter
        isBranchCreate =
        [.postBranch ("refs/heads/" ++ ("fix/chaos-recovery-" ++ toString 5))
          gi.objectSha] ∧
      (autonomous_heal
          ⟨(some ⟨"x".toList, "cs"⟩, 200), (some ⟨some ("main"), "u"⟩, 200),
           (some ⟨"msha"⟩, 200), (some ⟨"- [ ] t".toList, "ts"⟩, 200),
           (some ⟨"PR".toList, "purl"⟩, 201)⟩ 5 ("demo")).trace.filter
        isFileDelete =
        [.deleteFile "cs" ("fix/chaos-recovery-" ++ toString 5)] ∧
      ((autonomous_heal
          ⟨(some ⟨"x".toList, "cs"⟩, 200), (some ⟨some ("main"), "u"⟩, 200),
           (some ⟨"msha"⟩, 200), (some ⟨"- [ ] t".toList, "ts"⟩, 200),
           (some ⟨"PR".toList, "purl"⟩, 201)⟩ 5 ("demo")).trace.filter
        isTasksPut = [] ∨
       ∃ c s, (autonomous_heal
          ⟨(some ⟨"x".toList, "cs"⟩, 200), (some ⟨some ("main"), "u"⟩, 200),
           (some ⟨"msha"⟩, 200), (some ⟨"- [ ] t".toList, "ts"⟩, 200),
           (some ⟨"PR".toList, "purl"⟩, 201)⟩ 5 ("demo")).trace.filter
        isTasksPut = [.putTasks c s ("fix/chaos-recovery-" ++ toString 5)]) ∧
      (autonomous_heal
          ⟨(some ⟨"x".toList, "cs"⟩, 200), (some ⟨some ("main"), "u"⟩, 200),
           (some ⟨"msha"⟩, 200), (some ⟨"- [ ] t".toList, "ts"⟩, 200),
           (some ⟨"PR".toList, "purl"⟩, 201)⟩ 5 ("demo")).trace.filter
        isPrCreate =
        [.postPr ("fix/chaos-recovery-" ++ toString 5)
          (ri.default_branch.getD ("main"))] ∧
      (autonomous_heal
          ⟨(some ⟨"x".toList, "cs"⟩, 200), (some ⟨some ("main"), "u"⟩, 200),
           (some ⟨"msha"⟩, 200), (some ⟨"- [ ] t".toList, "ts"⟩, 200),
           (some ⟨"PR".toList, "purl"⟩, 201)⟩ 5 ("demo")).trace.countP
        isBranchCreate = 1 ∧
      (autonomous_heal
          ⟨(some ⟨"x".toList, "cs"⟩, 200), (some ⟨some ("main"), "u"⟩, 200),
           (some ⟨"msha"⟩, 200), (some ⟨"- [ ] t".toList, "ts"⟩, 200),
           (some ⟨"PR".toList, "purl"⟩, 201)⟩ 5 ("demo")).trace.countP
        isFileDelete = 1 ∧
      (autonomous_heal
          ⟨(some ⟨"x".toList, "cs"⟩, 200), (some ⟨some ("main"), "u"⟩, 200),
           (some ⟨"msha"⟩, 200), (some ⟨"- [ ] t".toList, "ts"⟩, 200),
           (some ⟨"PR".toList, "purl"⟩, 201)⟩ 5 ("demo")).trace.countP
        isTasksPut ≤ 1 ∧
      (autonomous_heal
          ⟨(some ⟨"x".toList, "cs"⟩, 200), (some ⟨some ("main"), "u"⟩, 200),
           (some ⟨"msha"⟩, 200), (some ⟨"- [ ] t".toList, "ts"⟩, 200),
           (some ⟨"PR".toList, "purl"⟩, 201)⟩ 5 ("demo")).trace.countP
        isPrCreate = 1 :=
  C5_heal_write_counts
    ⟨(some ⟨"x".toList, "cs"⟩, 200), (some ⟨some ("main"), "u"⟩, 200),
     (some ⟨"msha"⟩, 200), (some ⟨"- [ ] t".toList, "ts"⟩, 200),
     (some ⟨"PR".toList, "purl"⟩, 201)⟩ 5 ("demo") ⟨"x".toList, "cs"⟩
    rfl rfl rfl (fun _ => rfl)

/-- C5 fails as stated over all runs with a succeeding artifact read: when
the repository-metadata read returns the sentinel, the run aborts with an
attribute error after zero branch creations, zero deletes and zero
pull-request creations. -/
theorem C5_counterexample :
    (autonomous_heal
        ⟨(some ⟨"x".toList, "cs"⟩, 200), (none, 0), (none, 0), (none, 0),
         (none, 0)⟩ 5 ("demo")).trace.countP isPrCreate = 0 ∧
    (autonomous_heal
        ⟨(some ⟨"x".toList, "cs"⟩, 200), (none, 0), (none, 0), (none, 0),
         (none, 0)⟩ 5 ("demo")).trace.countP isBranchCreate = 0 ∧
    (autonomous_heal
        ⟨(some ⟨"x".toList, "cs"⟩, 200), (none, 0), (none, 0), (none, 0),
         (none, 0)⟩ 5 ("demo")).err = some .attributeError := by
  refine ⟨?_, ?_, ?_⟩ <;> rfl

/-- C4 (amended): under any pattern of API-call failures — each response
either a parsed success body or the (null, 0) sentinel — get_context and
update_tasks_md always complete without raising; save_and_issue completes
exactly when the repository-metadata read returns a parsed body and raises
an attribute error when that read fails; autonomous_heal completes whenever
every body it dereferences past its gate (artifact, repository metadata,
ref, checklist at status 200, PR body at status 201) is parsed, and raises
when the gate passes but the repository-metadata read failed. -/
theorem C4_error_absorption :
    (∀ r tasks prs hp, ∃ ctx, get_context r tasks prs hp = ctx) ∧
    (∀ tr r b, (tr.2 = 200 → tr.1.isSome = true) →
      (update_tasks_md tr r b).err = none) ∧
    (∀ r c rr, rr.1.isSome = true → (save_and_issue r c rr).err = none) ∧
    (∀ r c, (save_and_issue r c (none, 0)).err = some .attributeError) ∧
    (∀ env rnd r f, env.chaosRead = (some f, 200) → env.repoRead.1 = none →
      (autonomous_heal env rnd r).err = some .attributeError) ∧
    (∀ env rnd r, (env.chaosRead.2 = 200 → env.chaosRead.1.isSome = true) →
      (env.chaosRead.2 = 200 → env.repoRead.1.isSome = true) →
      (env.chaosRead.2 = 200 → env.refRead.1.isSome = true) →
      (env.tasksRead.2 = 200 → env.tasksRead.1.isSome = true) →
      (env.prCreate.2 = 201 → env.prCreate.1.isSome = true) →
      (autonomous_heal env rnd r).err = none) := by
  refine ⟨fun r tasks prs hp => ⟨_, rfl⟩, ?_, ?_, ?_, ?_, ?_⟩
  · intro tr r b ht
    exact (update_tasks_md_completes tr r b ht).1
  · intro r c rr hrr
    obtain ⟨ri, hri⟩ := Option.isSome_iff_exists.mp hrr
    simp [save_and_issue, hri]
  · intro r c
    rfl
  · intro env rnd r f hc hrn
    have hc2 : env.chaosRead.2 = 200 := by rw [hc]
    have hc1 : env.chaosRead.1 = some f := by rw [hc]
    simp [autonomous_heal, hc2, hc1, hrn]
  · intro env rnd r hcb hr hg ht hp
    by_cases hc2 : env.chaosRead.2 = 200
    · obtain ⟨f, hc1⟩ := Option.isSome_iff_exists.mp (hcb hc2)
      obtain ⟨ri, hri⟩ := Option.isSome_iff_exists.mp (hr hc2)
      obtain ⟨gi, hgi⟩ := Option.isSome_iff_exists.mp (hg hc2)
      obtain ⟨herr, -⟩ := update_tasks_md_completes env.tasksRead r
        ("fix/chaos-recovery-" ++ toString rnd) ht
      by_cases hpr : env.prCreate.2 = 201
      · obtain ⟨pr, hpc⟩ := Option.isSome_iff_exists.mp (hp hpr)
        simp [autonomous_heal, hc2, hc1, hri, hgi, herr, hpr, hpc]
      · simp [autonomous_heal, hc2, hc1, hri, hgi, herr, hpr]
    · simp [autonomous_heal, hc2]

/-- Witness for C4 (amended) at concrete environments, one per conjunct. -/
theorem C4_error_absorption_witness :
    (∃ ctx, get_context ("demo".toList) none none none = ctx) ∧
    (update_tasks_md (none, 0) ("r") ("b")).err = none ∧
    (save_and_issue ("r") ⟨[], [], [], [], []⟩
      (some ⟨some ("main"), "u"⟩, 200)).err = none ∧
    (save_and_issue ("r") ⟨[], [], [], [], []⟩ (none, 0)).err =
      some .attributeError ∧
    (autonomous_heal
      ⟨(some ⟨[], "cs"⟩, 200), (none, 0), (none, 0), (none, 0), (none, 0)⟩
      5 ("r")).err = some .attributeError ∧
    (autonomous_heal
      ⟨(none, 0), (none, 0), (none, 0), (none, 0), (none, 0)⟩
      5 ("r")).err = none :=
  ⟨C4_error_absorption.1 ("demo".toList) none none none,
   C4_error_absorption.2.1 (none, 0) ("r") ("b") (by decide),
   C4_error_absorption.2.2.1 ("r") ⟨[], [], [], [], []⟩
     (some ⟨some ("main"), "u"⟩, 200) rfl,
   C4_error_absorption.2.2.2.1 ("r") ⟨[], [], [], [], []⟩,
   C4_error_absorption.2.2.2.2.1
     ⟨(some ⟨[], "cs"⟩, 200), (none, 0), (none, 0), (none, 0), (none, 0)⟩
     5 ("r") ⟨[], "cs"⟩ rfl rfl,
   C4_error_absorption.2.2.2.2.2
     ⟨(none, 0), (none, 0), (none, 0), (none, 0), (none, 0)⟩ 5 ("r")
     (by decide) (by decide) (by decide) (by decide) (by decide)⟩

/-- C4 fails as stated: with every API call collapsing to the (null, 0)
sentinel, save_and_issue raises an attribute error (the `.get` on the null
repository-metadata body) instead of absorbing the failure. -/
theorem C4_counterexample :
    (save_and_issue ("r") ⟨[], [], [], [], []⟩ (none, 0)).err =
      some .attributeError ∧
    (save_and_issue ("r") ⟨[], [], [], [], []⟩ (none, 0)).err ≠ none := by
  exact ⟨rfl, by decide⟩

end AiUlu
